import Mathlib

/-!
A shallow embedding of `src/fireplace.py` (a gas-fireplace relay controller CLI).

Modelling conventions:
* Durations (Python floats holding seconds) are embedded as rationals `ℚ`;
  all durations appearing in the source are exact decimal literals, so no
  floating-point rounding is relevant to any statement proved here.
* GPIO pin numbers (Python ints) are embedded as `ℤ`.
* The observable behaviour of one CLI invocation is a trace of events:
  relay writes (`Relay.open` / `Relay.close` calls), calls of the
  interruptible sleep `_sleep_with_sigint` (recorded with the requested
  duration), and diagnostic prints (recorded structurally; the exact
  float formatting of messages is abstracted, except for the unknown-relay
  error message, which is modelled as the literal string the source builds).
* Two fault oracles drive the control flow, mirroring how exceptions arise
  in the source:
  - `cancelAt : Option ℕ` — index of the wait call (counting calls of
    `_sleep_with_sigint` and the indefinite `while True: time.sleep(1)`
    loops) during which SIGINT is delivered.  The installed signal handler
    (src line 530) raises `KeyboardInterrupt`; `_sleep_with_sigint` has no
    handler for it, so the exception propagates, while the indefinite hold
    loops of `cmd_hold` / `cmd_maintained` are wrapped in
    `try/except KeyboardInterrupt` and absorb it.
  - `failAt : Option ℕ` — index of the relay write (a live `gpiozero`
    `.on()`/`.off()` call) that raises a hardware error.  No pattern
    function contains a handler for it, so it always propagates.
-/

namespace Fireplace

/-- The two relay operations: `Relay.open` (deactivate) / `Relay.close`
(activate), src lines 171-185. -/
inductive RelayOp
| openR
| closeR
deriving DecidableEq, Repr

/-- Structural stand-ins for the `print` calls of the source. -/
inductive Note
| probing                                  -- src line 267
| phase (pin : ℤ) (op : RelayOp) (dur : ℚ)  -- src lines 276, 280, 285
| holding                                  -- src line 215
| maintainedActive                         -- src line 243
| guardWaiting (d : ℚ)                     -- src line 200
| guardSkip (minUp : ℚ)                    -- src line 195
| interruptedMsg                           -- src line 535
deriving DecidableEq, Repr

/-- One observable event of an invocation. -/
inductive Ev
| wr (pin : ℤ) (op : RelayOp)   -- a successful relay write
| sleep (d : ℚ)                 -- a call of `_sleep_with_sigint d`
| note (n : Note)               -- a diagnostic print
deriving DecidableEq, Repr

/-- One statement of the straight-line pattern code, read off the source. -/
inductive Step
| doOpen (pin : ℤ)     -- `relay.open()`
| doClose (pin : ℤ)    -- `relay.close()`
| doSleep (d : ℚ)      -- `_sleep_with_sigint(d)` — interrupt propagates here
| indefWait            -- `try: while True: time.sleep(1) except KeyboardInterrupt: pass`
| emit (n : Note)      -- a `print(...)`
deriving DecidableEq, Repr

/-- How one invocation's pattern execution ended. -/
inductive Outcome
| normal        -- fell off the end of the pattern
| interrupted   -- KeyboardInterrupt propagated out of a timed wait
| hwFail        -- a hardware write raised; no pattern catches this
| diverged      -- an indefinite hold that is never cancelled does not return
deriving DecidableEq, Repr

/-- Result of running a pattern: the events that happened, and how it ended. -/
structure Exec where
  trace : List Ev
  outcome : Outcome
deriving DecidableEq, Repr

/-- Interpreter for a pattern's statement list.  `w` counts wait calls
(for `cancelAt`), `f` counts relay writes (for `failAt`), `tr` accumulates
the trace.  A failing write aborts with `.hwFail` (the exception propagates:
no pattern function has a `try`/`finally` or `except` for it).  An interrupt
during `doSleep` aborts with `.interrupted` (`_sleep_with_sigint` does not
catch `KeyboardInterrupt`); an interrupt during `indefWait` is caught by the
surrounding `except KeyboardInterrupt: pass` and execution continues. -/
def runSteps (cancelAt failAt : Option ℕ) :
    List Step → ℕ → ℕ → List Ev → Exec
| [], _, _, tr => ⟨tr, .normal⟩
| .doOpen p :: rest, w, f, tr =>
    if failAt = some f then ⟨tr, .hwFail⟩
    else runSteps cancelAt failAt rest w (f + 1) (tr ++ [.wr p .openR])
| .doClose p :: rest, w, f, tr =>
    if failAt = some f then ⟨tr, .hwFail⟩
    else runSteps cancelAt failAt rest w (f + 1) (tr ++ [.wr p .closeR])
| .doSleep d :: rest, w, f, tr =>
    if cancelAt = some w then ⟨tr, .interrupted⟩
    else runSteps cancelAt failAt rest (w + 1) f (tr ++ [.sleep d])
| .indefWait :: rest, w, f, tr =>
    if cancelAt = some w then runSteps cancelAt failAt rest (w + 1) f tr
    else ⟨tr, .diverged⟩
| .emit n :: rest, w, f, tr =>
    runSteps cancelAt failAt rest w f (tr ++ [.note n])

/-- Run a pattern from the initial state. -/
def runPattern (cancelAt failAt : Option ℕ) (steps : List Step) : Exec :=
  runSteps cancelAt failAt steps 0 0 []

/-- The `__main__` block (src lines 528-536): a `KeyboardInterrupt` that
propagates to top level prints `Interrupted` and exits with status 130; a
normal return exits 0; an uncaught hardware exception terminates the
interpreter with a nonzero status (modelled as 1); a diverging run never
terminates (exit status `none`). -/
def topLevel (e : Exec) : List Ev × Option ℤ :=
  match e.outcome with
  | .normal => (e.trace, some 0)
  | .interrupted => (e.trace ++ [.note .interruptedMsg], some 130)
  | .hwFail => (e.trace, some 1)
  | .diverged => (e.trace, none)

/-! ## Relay tables (src lines 84-117) -/

/-- Table `KNOWN_RELAYS`: canonical name → BCM pin (src lines 84-89). -/
def KNOWN_RELAYS : List (String × ℤ) :=
  [("low_flame", 4), ("high_flame", 22), ("aux_1", 6), ("aux_2", 26)]

/-- Table `RELAY_ALIASES`: alias → canonical name (src lines 99-117). -/
def RELAY_ALIASES : List (String × String) :=
  [("main_burner", "low_flame"), ("main", "low_flame"),
   ("relay_gpio4", "low_flame"), ("relay_gpio22", "high_flame"),
   ("relay_gpio6", "aux_1"), ("relay_gpio26", "aux_2"),
   ("gpio4", "low_flame"), ("gpio22", "high_flame"),
   ("gpio6", "aux_1"), ("gpio26", "aux_2"),
   ("r4", "low_flame"), ("r22", "high_flame"),
   ("r6", "aux_1"), ("r26", "aux_2")]

/-- The canonical names, in the order `sorted(KNOWN_RELAYS.keys())`
produces them (src line 149). -/
def sortedKnownNames : List String :=
  ["aux_1", "aux_2", "high_flame", "low_flame"]

/-! ## Small string utilities -/

/-- Python `str.strip()`: drop whitespace from both ends.  (Defined by
structural recursion on the character list so that proofs can evaluate it;
`String.trim` computes the same strings on the inputs that matter here.) -/
def pyStrip (s : String) : String :=
  ⟨((s.data.dropWhile Char.isWhitespace).reverse.dropWhile
      Char.isWhitespace).reverse⟩

/-- Python `", ".join(...)` (structurally recursive). -/
def commaJoin : List String → String
| [] => ""
| [x] => x
| x :: y :: rest => x ++ ", " ++ commaJoin (y :: rest)

/-! ## Python `int(...)` parsing, used by `_resolve_relay_ref` -/

/-- Digit run with Python's underscore grouping: an underscore must sit
between two digits. The head character is checked separately. -/
def digitsU : List Char → Bool
| [] => true
| ['_'] => false
| '_' :: c :: rest => c.isDigit && digitsU (c :: rest)
| c :: rest => c.isDigit && digitsU rest

/-- Python `int(s)` on an already-stripped string: optional sign, then ASCII
digits with underscore grouping; `none` models `ValueError`.  (Unicode
digit characters, which CPython also accepts, are out of scope.) -/
def pyInt (s : String) : Option ℤ :=
  let cs := s.data
  let sign : ℤ := match cs with
    | '-' :: _ => -1
    | _ => 1
  let body : List Char := match cs with
    | '+' :: r => r
    | '-' :: r => r
    | r => r
  match body with
  | [] => none
  | c :: _ =>
    if c.isDigit && digitsU body then
      some (sign * ((body.filter (fun ch => ch ≠ '_')).foldl
        (fun a ch => a * 10 + ((ch.toNat : ℤ) - 48)) 0))
    else none

/-! ## Channel resolution (src lines 127-150) -/

/-- The `SystemExit` message built at src lines 148-150. -/
def unknownRelayMessage (s : String) : String :=
  "Unknown relay '" ++ s ++
    ("'. Use one of: " ++ commaJoin sortedKnownNames ++
      " (or a BCM pin number)")

/-- The data carried by the resolution failure (`SystemExit`). -/
structure UnknownRelayError where
  ref : String
  message : String
deriving DecidableEq, Repr

/-- Result of `_resolve_relay_ref`: `ok` returns (`None` is modelled as
`ok none`), `err` models the raised `SystemExit`. -/
inductive ResolveResult
| ok (pin : Option ℤ)
| err (e : UnknownRelayError)
deriving DecidableEq, Repr

/-- The resolver `_resolve_relay_ref` (src lines 127-150).  The input is
`Optional[str | int]`: `none` ↦ `None`; `.inr n` ↦ an int already parsed
by argparse (returned unchanged); `.inl s` ↦ a string, which is stripped,
treated as absent if empty, alias-substituted, looked up in the canonical
table, and finally parsed as an integer, raising `SystemExit` if all fail. -/
def resolveRelayRef (value : Option (String ⊕ ℤ)) : ResolveResult :=
  match value with
  | none => .ok none
  | some (.inr n) => .ok (some n)
  | some (.inl raw) =>
    let s := pyStrip raw
    if s = "" then .ok none
    else
      let s2 := match RELAY_ALIASES.lookup s with
        | some c => c
        | none => s
      match KNOWN_RELAYS.lookup s2 with
      | some pin => .ok (some pin)
      | none =>
        match pyInt s2 with
        | some n => .ok (some n)
        | none => .err ⟨s2, unknownRelayMessage s2⟩

/-! ## Pin selection in `main` (src lines 458-469) -/

/-- Selection `main_pin = _resolve_relay_ref(args.main_relay) or
_resolve_relay_ref(args.pin_main)` (src line 458).  Python `or` takes the
second operand when the first is falsy — i.e. `None` **or `0`** — and a
raised `SystemExit` from either resolution propagates. -/
def selectPin (pref legacy : Option (String ⊕ ℤ)) : ResolveResult :=
  match resolveRelayRef pref with
  | .err e => .err e
  | .ok none => resolveRelayRef legacy
  | .ok (some n) => if n = 0 then resolveRelayRef legacy else .ok (some n)

/-- Outcome of the mandatory main-pin selection (src lines 465-469):
`selectPin` result `None` raises the missing-configuration `SystemExit`. -/
inductive MainPinOutcome
| pin (n : ℤ)
| missingConfig
| unknownRelay (e : UnknownRelayError)
deriving DecidableEq, Repr

/-- The `needs_main` path of `main`: resolve with fallback, then require a
pin (src lines 458, 465-469). -/
def mainPinRequired (pref legacy : Option (String ⊕ ℤ)) : MainPinOutcome :=
  match selectPin pref legacy with
  | .err e => .unknownRelay e
  | .ok none => .missingConfig
  | .ok (some n) => .pin n

/-! ## Pattern statement lists (src lines 204-287) -/

/-- Pattern `cmd_pulse` (src lines 204-208): open, close, sleep pulse width, open. -/
def pulseSteps (pin : ℤ) (pulse_ms : ℤ) : List Step :=
  [.doOpen pin, .doClose pin, .doSleep ((pulse_ms : ℚ) / 1000), .doOpen pin]

/-- Pattern `cmd_hold` (src lines 211-223): open, close, then either the announced
indefinite hold (its loop wrapped in `except KeyboardInterrupt`) or a timed
sleep, then open. -/
def holdSteps (pin : ℤ) (hold_seconds : Option ℚ) : List Step :=
  [.doOpen pin, .doClose pin] ++
    (match hold_seconds with
     | none => [.emit .holding, .indefWait]
     | some h => [.doSleep h]) ++
    [.doOpen pin]

/-- Pattern `cmd_maintained` (src lines 226-251): the vendor-documented dance with
fixed 1.0 s / 0.25 s / 0.25 s phases, then the hold, then open. -/
def maintainedSteps (pin : ℤ) (hold_seconds : Option ℚ) : List Step :=
  [.doOpen pin, .doSleep 1, .doClose pin, .doSleep (1/4),
   .doOpen pin, .doSleep (1/4), .doClose pin] ++
    (match hold_seconds with
     | none => [.emit .maintainedActive, .indefWait]
     | some h => [.doSleep h]) ++
    [.doOpen pin]

/-- The body of `cmd_probe`'s per-pin loop (src lines 268-286).  Note the
open-phase and post-open-phase print+sleep are guarded by strict positivity
of their durations, while the close-phase print+sleep is unconditional;
`close_for` defaults to the pulse width when `--close-seconds` is unset
(src line 271). -/
def probeChannelSteps (pulse_ms : ℤ) (open_seconds : ℚ)
    (close_seconds : Option ℚ) (post_open_seconds : ℚ) (pin : ℤ) :
    List Step :=
  let close_for : ℚ := match close_seconds with
    | some c => c
    | none => (pulse_ms : ℚ) / 1000
  [.doOpen pin] ++
    (if 0 < open_seconds then
      [.emit (.phase pin .openR open_seconds), .doSleep open_seconds]
     else []) ++
    [.doClose pin, .emit (.phase pin .closeR close_for), .doSleep close_for,
     .doOpen pin] ++
    (if 0 < post_open_seconds then
      [.emit (.phase pin .openR post_open_seconds), .doSleep post_open_seconds]
     else [])

/-- Pattern `cmd_probe`'s statement list (src lines 254-287): the banner, then each
pin's cycle in the order given.  (The `SystemExit` on an empty pin list,
src line 265, is not modelled; no statement here concerns an empty list.) -/
def probeSteps (pins : List ℤ) (pulse_ms : ℤ) (open_seconds : ℚ)
    (close_seconds : Option ℚ) (post_open_seconds : ℚ) : List Step :=
  .emit .probing ::
    pins.flatMap
      (probeChannelSteps pulse_ms open_seconds close_seconds post_open_seconds)

/-- Run `cmd_pulse` under the two fault oracles. -/
def cmd_pulse (cancelAt failAt : Option ℕ) (pin pulse_ms : ℤ) : Exec :=
  runPattern cancelAt failAt (pulseSteps pin pulse_ms)

/-- Run `cmd_hold` under the two fault oracles. -/
def cmd_hold (cancelAt failAt : Option ℕ) (pin : ℤ)
    (hold_seconds : Option ℚ) : Exec :=
  runPattern cancelAt failAt (holdSteps pin hold_seconds)

/-- Run `cmd_maintained` under the two fault oracles. -/
def cmd_maintained (cancelAt failAt : Option ℕ) (pin : ℤ)
    (hold_seconds : Option ℚ) : Exec :=
  runPattern cancelAt failAt (maintainedSteps pin hold_seconds)

/-- Run `cmd_probe` under the two fault oracles. -/
def cmd_probe (cancelAt failAt : Option ℕ) (pins : List ℤ) (pulse_ms : ℤ)
    (open_seconds : ℚ) (close_seconds : Option ℚ)
    (post_open_seconds : ℚ) : Exec :=
  runPattern cancelAt failAt
    (probeSteps pins pulse_ms open_seconds close_seconds post_open_seconds)

/-! ## Boot guard (src lines 188-201, with `_read_uptime_seconds` 46-52) -/

/-- Guard `_guard_after_boot min_uptime_seconds` with the uptime reading passed
in explicitly (`none` models an unreadable `/proc/uptime`, src lines
46-52).  Returns the events the call produces: nothing when the minimum is
non-positive; for an unreadable uptime, the skip note only in dry-run mode;
otherwise the waiting banner plus a sleep of exactly the deficit when the
deficit is strictly positive. -/
def guard_after_boot (min_uptime_seconds : ℚ) (uptime : Option ℚ)
    (dry_run : Bool) : List Ev :=
  if min_uptime_seconds ≤ 0 then []
  else
    match uptime with
    | none => if dry_run then [.note (.guardSkip min_uptime_seconds)] else []
    | some u =>
      let remaining := min_uptime_seconds - u
      if 0 < remaining then
        [.note (.guardWaiting remaining), .sleep remaining]
      else []

/-! ## Command dispatch in `main` (src lines 420-525) -/

/-- The subcommand names of the CLI. -/
inductive CmdName
| listRelays
| ignite
| on
| off
| high
| low
| pulseHigh
| probe
deriving DecidableEq, Repr

/-- The boot-guard gate of src line 491:
`if args.cmd in {"ignite", "on", "off"}`.  (`list-relays` and `probe`
return from `main` before this line, src lines 429-456; for them the
subset test would be false anyway.) -/
def guardApplied : CmdName → Bool
| .ignite => true
| .on => true
| .off => true
| _ => false

/-- The relay statements `main` executes for each relay-bearing
subcommand, including the fail-safe opens of src lines 485-488 (only the
relay the command needs is constructed, src lines 461-482).  `none` for
the two subcommands that return before any relay is constructed. -/
def mainCmdSteps (c : CmdName) (maintained : Bool) (pulse_ms : ℤ)
    (hold_seconds : Option ℚ) (mainPin highPin : ℤ) : Option (List Step) :=
  match c with
  | .ignite => some (.doOpen mainPin ::
      (if maintained then maintainedSteps mainPin hold_seconds
       else pulseSteps mainPin pulse_ms))
  | .on => some (.doOpen mainPin :: holdSteps mainPin hold_seconds)
  | .off => some [.doOpen mainPin, .doOpen mainPin]
  | .high => some (.doOpen highPin :: holdSteps highPin hold_seconds)
  | .low => some [.doOpen highPin, .doOpen highPin]
  | .pulseHigh => some (.doOpen highPin :: pulseSteps highPin pulse_ms)
  | .listRelays => none
  | .probe => none

/-- A statement list is deactivation-only when it contains no
`relay.close()` call. -/
def deactivationOnly (steps : List Step) : Bool :=
  steps.all (fun s => match s with | .doClose _ => false | _ => true)

/-! ## Trace extraction helpers -/

/-- The relay writes of a trace, in order. -/
def writes (tr : List Ev) : List (ℤ × RelayOp) :=
  tr.filterMap (fun e => match e with
    | .wr p k => some (p, k)
    | _ => none)

/-- Number of relay writes in a trace. -/
def countWrites (tr : List Ev) : ℕ :=
  (writes tr).length

/-- Last element of a list (structural recursion, for easy unfolding). -/
def lastPair : List (ℤ × RelayOp) → Option (ℤ × RelayOp)
| [] => none
| [x] => some x
| _ :: y :: rest => lastPair (y :: rest)

/-- The last relay write of a trace, if any. -/
def lastWrite (tr : List Ev) : Option (ℤ × RelayOp) :=
  lastPair (writes tr)

/-- Relay writes annotated with the total requested sleep time since the
previous write (diagnostic prints carry no time). -/
def timedWrites : List Ev → ℚ → List ((ℤ × RelayOp) × ℚ)
| [], _ => []
| .sleep d :: rest, acc => timedWrites rest (acc + d)
| .note _ :: rest, acc => timedWrites rest acc
| .wr p k :: rest, acc => ((p, k), acc) :: timedWrites rest 0

/-- Whether a trace contains the boot guard's degraded-uptime note. -/
def hasGuardSkipNote (tr : List Ev) : Bool :=
  tr.any (fun e => match e with
    | .note (.guardSkip _) => true
    | _ => false)

/-- Total requested sleep time of a trace. -/
def totalSleep (tr : List Ev) : ℚ :=
  (tr.map (fun e => match e with | .sleep d => d | _ => 0)).sum

/-! ## The probe cycle as the spec words it (for the C8 comparison) -/

/-- Modelled from the spec: one probe cycle as the spec's sentence lists
it — "open, wait(0), close, wait(0.3), open, wait(0.5)" — including the
explicit zero-duration wait (the source skips the timer call when the
open-phase duration is zero, which elapses the same zero time). -/
def specProbeCycle (pin : ℤ) : List Ev :=
  [.wr pin .openR, .sleep 0, .wr pin .closeR, .sleep (3/10),
   .wr pin .openR, .sleep (1/2)]

/-- Modelled from the spec: the claimed probe trace for the default
channel list `[4, 22, 6, 26]`, one cycle per channel in that order. -/
def specProbeTrace : List Ev :=
  [4, 22, 6, 26].flatMap specProbeCycle

/-! ## Helper lemmas -/

/-- A successful association-list lookup exhibits a member of the list. -/
theorem mem_of_lookup_eq_some {α β : Type} [BEq α] [LawfulBEq α]
    (l : List (α × β)) (a : α) (b : β) (h : List.lookup a l = some b) :
    (a, b) ∈ l := by
  induction l with
  | nil => simp [List.lookup] at h
  | cons p rest ih =>
    obtain ⟨k, v⟩ := p
    rw [List.lookup] at h
    cases hk : (a == k) with
    | true =>
      rw [hk] at h
      simp only [Option.some.injEq] at h
      have ha : a = k := eq_of_beq hk
      subst ha
      subst h
      exact List.mem_cons_self _ _
    | false =>
      rw [hk] at h
      exact List.mem_cons_of_mem _ (ih h)

/-- When a hardware write fails, the interpreter stops with exactly the
writes that preceded the failing one in the trace: nothing at all — in
particular no trailing fail-safe open — is executed after the failure. -/
theorem runSteps_hwFail_countWrites (c : Option ℕ) (k : ℕ) :
    ∀ (steps : List Step) (w f : ℕ) (tr : List Ev),
      countWrites tr = f →
      (runSteps c (some k) steps w f tr).outcome = .hwFail →
      countWrites (runSteps c (some k) steps w f tr).trace = k := by
  intro steps
  induction steps with
  | nil =>
    intro w f tr hcw hout
    simp [runSteps] at hout
  | cons s rest ih =>
    intro w f tr hcw hout
    cases s with
    | doOpen p =>
      rw [runSteps] at hout ⊢
      by_cases hf : (some k : Option ℕ) = some f
      · rw [if_pos hf] at hout ⊢
        simp only [Option.some.injEq] at hf
        simpa [hf] using hcw
      · rw [if_neg hf] at hout ⊢
        refine ih w (f + 1) _ ?_ hout
        simp [countWrites, writes, List.filterMap_append, hcw,
          countWrites.eq_def, writes.eq_def] at hcw ⊢
        omega
    | doClose p =>
      rw [runSteps] at hout ⊢
      by_cases hf : (some k : Option ℕ) = some f
      · rw [if_pos hf] at hout ⊢
        simp only [Option.some.injEq] at hf
        simpa [hf] using hcw
      · rw [if_neg hf] at hout ⊢
        refine ih w (f + 1) _ ?_ hout
        simp [countWrites, writes, List.filterMap_append, hcw,
          countWrites.eq_def, writes.eq_def] at hcw ⊢
        omega
    | doSleep d =>
      rw [runSteps] at hout ⊢
      by_cases hc : c = some w
      · rw [if_pos hc] at hout
        simp at hout
      · rw [if_neg hc] at hout ⊢
        refine ih (w + 1) f _ ?_ hout
        simpa [countWrites, writes, List.filterMap_append] using hcw
    | indefWait =>
      rw [runSteps] at hout ⊢
      by_cases hc : c = some w
      · rw [if_pos hc] at hout ⊢
        exact ih (w + 1) f _ hcw hout
      · rw [if_neg hc] at hout
        simp at hout
    | emit n =>
      rw [runSteps] at hout ⊢
      refine ih w f _ ?_ hout
      simpa [countWrites, writes, List.filterMap_append] using hcw

/-! ## Claim theorems -/

/-- C1: the claim says every pattern's final relay operation is `open()`
for both normal and cancelled termination.  The code violates this: when
SIGINT is delivered during the pulse pattern's timed wait (pin 4,
pulse width 250 ms), the `KeyboardInterrupt` raised by the signal handler
propagates out of `_sleep_with_sigint` — which has no handler — so the
trailing `relay.open()` of `cmd_pulse` (src line 208) never executes and
the run ends with the relay still closed/activated, contradicting the
fail-safe comments in the source itself. -/
theorem C1_cancel_during_pulse_wait_leaves_closed :
    (cmd_pulse (some 0) none 4 250).outcome = .interrupted ∧
    (cmd_pulse (some 0) none 4 250).trace = [.wr 4 .openR, .wr 4 .closeR] ∧
    lastWrite (cmd_pulse (some 0) none 4 250).trace = some (4, .closeR) := by
  decide

/-- C2 counterexample: cancellation delivered during the timed wait of the
hold pattern (pin 4, 5 s hold) is _not_ absorbed: the wait raises, the
pattern's trailing open is skipped (the last write is the close), and the
process terminates via the top-level `KeyboardInterrupt` handler with exit
status 130, not a normal status. -/
theorem C2_cancel_mid_timed_wait_raises :
    (cmd_hold (some 0) none 4 (some 5)).outcome = .interrupted ∧
    lastWrite (cmd_hold (some 0) none 4 (some 5)).trace = some (4, .closeR) ∧
    (topLevel (cmd_hold (some 0) none 4 (some 5))).2 = some 130 := by
  decide

/-- C2 amended: cancellation is absorbed only by the indefinite-hold loops
of `cmd_hold` and `cmd_maintained` (wrapped in `except KeyboardInterrupt`),
which then run the trailing fail-safe open and terminate normally (exit 0);
a cancellation delivered during any `_sleep_with_sigint` wait propagates:
the pattern ends `interrupted` with its trailing open skipped (last write
is the close) and the process exits 130 after printing `Interrupted`. -/
theorem C2_cancellation_absorbed_only_at_indefinite_hold :
    (∀ pin : ℤ,
      cmd_hold (some 0) none pin none =
        ⟨[.wr pin .openR, .wr pin .closeR, .note .holding, .wr pin .openR],
         .normal⟩ ∧
      (topLevel (cmd_hold (some 0) none pin none)).2 = some 0) ∧
    (∀ pin : ℤ,
      cmd_maintained (some 3) none pin none =
        ⟨[.wr pin .openR, .sleep 1, .wr pin .closeR, .sleep (1/4),
          .wr pin .openR, .sleep (1/4), .wr pin .closeR,
          .note .maintainedActive, .wr pin .openR], .normal⟩ ∧
      (topLevel (cmd_maintained (some 3) none pin none)).2 = some 0) ∧
    (∀ pin pulse_ms : ℤ,
      (cmd_pulse (some 0) none pin pulse_ms).outcome = .interrupted ∧
      lastWrite (cmd_pulse (some 0) none pin pulse_ms).trace =
        some (pin, .closeR) ∧
      (topLevel (cmd_pulse (some 0) none pin pulse_ms)).2 = some 130) ∧
    (∀ (pin : ℤ) (h : ℚ),
      (cmd_hold (some 0) none pin (some h)).outcome = .interrupted ∧
      lastWrite (cmd_hold (some 0) none pin (some h)).trace =
        some (pin, .closeR) ∧
      (topLevel (cmd_hold (some 0) none pin (some h))).2 = some 130) := by
  refine ⟨fun pin => ⟨?_, ?_⟩, fun pin => ⟨?_, ?_⟩,
    fun pin pulse_ms => ⟨?_, ?_, ?_⟩, fun pin h => ⟨?_, ?_, ?_⟩⟩ <;>
    simp [cmd_hold, cmd_maintained, cmd_pulse, runPattern, holdSteps,
      maintainedSteps, pulseSteps, runSteps, topLevel, lastWrite, writes,
      lastPair]

/-- C4 counterexample: when the `relay.close()` write of the pulse pattern
fails (write index 1), the exception propagates at once: the run ends in
the hardware-failure state with trace exactly the one successful initial
open — no best-effort trailing `open()` is attempted after the failure,
contradicting the claim. -/
theorem C4_no_trailing_open_after_write_failure :
    cmd_pulse none (some 1) 4 250 = ⟨[.wr 4 .openR], .hwFail⟩ := by
  decide

/-- C4 amended: a hardware write failure mid-pattern aborts all remaining
steps and propagates immediately; no trailing open is attempted — in every
pattern, a run that ends in `hwFail` because write number `k` failed has
performed exactly the `k` writes that preceded the failing one. -/
theorem C4_write_failure_aborts_without_trailing_open :
    (∀ (pin pulse_ms : ℤ) (k : ℕ),
      (cmd_pulse none (some k) pin pulse_ms).outcome = .hwFail →
      countWrites (cmd_pulse none (some k) pin pulse_ms).trace = k) ∧
    (∀ (pin : ℤ) (hold : Option ℚ) (k : ℕ),
      (cmd_hold none (some k) pin hold).outcome = .hwFail →
      countWrites (cmd_hold none (some k) pin hold).trace = k) ∧
    (∀ (pin : ℤ) (hold : Option ℚ) (k : ℕ),
      (cmd_maintained none (some k) pin hold).outcome = .hwFail →
      countWrites (cmd_maintained none (some k) pin hold).trace = k) ∧
    (∀ (pins : List ℤ) (pulse_ms : ℤ) (oS : ℚ) (cS : Option ℚ) (pS : ℚ)
        (k : ℕ),
      (cmd_probe none (some k) pins pulse_ms oS cS pS).outcome = .hwFail →
      countWrites (cmd_probe none (some k) pins pulse_ms oS cS pS).trace
        = k) := by
  refine ⟨fun pin pm k h => ?_, fun pin hold k h => ?_,
    fun pin hold k h => ?_, fun pins pm oS cS pS k h => ?_⟩ <;>
    exact runSteps_hwFail_countWrites none k _ 0 0 [] rfl h

/-- C4 witness: the hold pattern with a failing `close()` (pin 4, 2 s
hold): the run ends in `hwFail` having performed exactly the one write
that preceded the failure. -/
theorem C4_write_failure_witness :
    (cmd_hold none (some 1) 4 (some 2)).outcome = .hwFail ∧
    countWrites (cmd_hold none (some 1) 4 (some 2)).trace = 1 :=
  ⟨by decide,
   C4_write_failure_aborts_without_trailing_open.2.1 4 (some 2) 1 (by decide)⟩

/-- C3 counterexample: `off` is a deactivation-only command — its relay
statements are exactly the fail-safe open (src line 486) and the final
open (src line 509) — yet the boot guard is applied to it (src line 491
tests membership in `{"ignite", "on", "off"}`), contradicting the claim
that the guard is never applied to a deactivation-only command. -/
theorem C3_guard_applied_to_deactivation_only_off :
    guardApplied .off = true ∧
    mainCmdSteps .off false 250 none 4 22 = some [.doOpen 4, .doOpen 4] ∧
    deactivationOnly [.doOpen 4, .doOpen 4] = true := by
  decide

/-- C3 amended: the boot guard is applied to exactly the three main-channel
commands `ignite`, `on` and `off` — including the deactivation-only `off` —
and to no other command; in particular `high` and `pulse-high` are not
guarded even though they activate (close) the high-flame channel. -/
theorem C3_guard_exactly_main_channel_commands :
    (∀ c : CmdName,
      guardApplied c = true ↔ (c = .ignite ∨ c = .on ∨ c = .off)) ∧
    (∀ (m : Bool) (pm : ℤ) (h : Option ℚ) (mp hp : ℤ),
      mainCmdSteps .off m pm h mp hp = some [.doOpen mp, .doOpen mp] ∧
      deactivationOnly [.doOpen mp, .doOpen mp] = true) ∧
    guardApplied .high = false ∧ guardApplied .pulseHigh = false ∧
    (∀ (m : Bool) (pm : ℤ) (h : Option ℚ) (mp hp : ℤ),
      ∃ st, mainCmdSteps .high m pm h mp hp = some st ∧
        deactivationOnly st = false) ∧
    (∀ (m : Bool) (pm : ℤ) (h : Option ℚ) (mp hp : ℤ),
      ∃ st, mainCmdSteps .pulseHigh m pm h mp hp = some st ∧
        deactivationOnly st = false) := by
  refine ⟨fun c => ?_, fun m pm h mp hp => ?_, rfl, rfl,
    fun m pm h mp hp => ⟨_, rfl, ?_⟩, fun m pm h mp hp => ⟨_, rfl, ?_⟩⟩
  · cases c <;> simp [guardApplied]
  · exact ⟨rfl, rfl⟩
  · cases h <;> simp [mainCmdSteps, holdSteps, deactivationOnly]
  · simp [mainCmdSteps, pulseSteps, deactivationOnly]

/-- Each canonical relay name occurs verbatim inside the unknown-relay
error message, whatever unresolved reference `t` the message embeds. -/
theorem knownNames_infix_message (t : String) :
    ∀ name ∈ sortedKnownNames,
      name.data <:+: (unknownRelayMessage t).data := by
  intro name hn
  have htail : name.data <:+:
      ("'. Use one of: " ++ commaJoin sortedKnownNames ++
        " (or a BCM pin number)").data := by
    fin_cases hn <;> decide
  have hsuffix :
      ("'. Use one of: " ++ commaJoin sortedKnownNames ++
        " (or a BCM pin number)").data <:+ (unknownRelayMessage t).data := by
    simp only [unknownRelayMessage, String.data_append, List.append_assoc]
    exact (List.suffix_append _ _).trans (List.suffix_append _ _)
  exact htail.trans hsuffix.isInfix

/-- C5: channel resolution tries the alias table, then the canonical name
table, then integer parse — mirrored by the very shape of
`resolveRelayRef` — and consequently: every alias resolves to the same
pin as its canonical name; a reference matching none of the three fails
with the unknown-relay error whose message contains every canonical name
(and `sortedKnownNames` enumerates exactly the canonical-name table's
keys); a reference matching only the integer parse resolves to that
integer. -/
theorem C5_resolution_order_and_error :
    (∀ pr ∈ RELAY_ALIASES,
      resolveRelayRef (some (.inl pr.1)) =
        resolveRelayRef (some (.inl pr.2))) ∧
    (∀ s : String, pyStrip s ≠ "" →
      List.lookup (pyStrip s) RELAY_ALIASES = none →
      List.lookup (pyStrip s) KNOWN_RELAYS = none →
      pyInt (pyStrip s) = none →
      resolveRelayRef (some (.inl s)) =
        .err ⟨pyStrip s, unknownRelayMessage (pyStrip s)⟩ ∧
      ∀ name ∈ sortedKnownNames,
        name.data <:+: (unknownRelayMessage (pyStrip s)).data) ∧
    ((KNOWN_RELAYS.map Prod.fst).all sortedKnownNames.contains ∧
      sortedKnownNames.all (KNOWN_RELAYS.map Prod.fst).contains) ∧
    (∀ (s : String) (n : ℤ), pyStrip s ≠ "" →
      List.lookup (pyStrip s) RELAY_ALIASES = none →
      List.lookup (pyStrip s) KNOWN_RELAYS = none →
      pyInt (pyStrip s) = some n →
      resolveRelayRef (some (.inl s)) = .ok (some n)) := by
  refine ⟨by decide, fun s h0 h1 h2 h3 => ⟨?_, knownNames_infix_message _⟩,
    by decide, fun s n h0 h1 h2 h3 => ?_⟩ <;>
    simp [resolveRelayRef, h0, h1, h2, h3]

/-- C5 witness: the unresolvable reference `bogus` — not empty, no alias,
no canonical name, not an integer — fails with the enumerating message,
which contains the canonical name `low_flame`. -/
theorem C5_resolution_witness :
    resolveRelayRef (some (.inl "bogus")) =
      .err ⟨"bogus", unknownRelayMessage "bogus"⟩ ∧
    "low_flame".data <:+: (unknownRelayMessage (pyStrip "bogus")).data := by
  have h := C5_resolution_order_and_error.2.1 "bogus"
    (by decide) (by decide) (by decide) (by decide)
  exact ⟨h.1, h.2 "low_flame" (by decide)⟩

/-- C6 counterexample: the resolver succeeds on the reference `-5` and
emits the negative channel identifier `-5` (the integer-parse fallback
returns `int(s)` unvalidated), contradicting the claim that it never
emits a negative value. -/
theorem C6_resolver_emits_negative :
    resolveRelayRef (some (.inl "-5")) = .ok (some (-5)) ∧ (-5 : ℤ) < 0 := by
  decide

/-- C6 amended: references resolved through the alias or canonical-name
tables always yield one of the fixed non-negative board pins, but integer
references — whether passed as an already-parsed int or as a numeric
string — are returned unvalidated, so a negative reference yields a
negative identifier. -/
theorem C6_resolver_range :
    (∀ pr ∈ KNOWN_RELAYS, 0 ≤ pr.2) ∧
    (∀ (s c : String),
      List.lookup (pyStrip s) RELAY_ALIASES = some c →
      ∃ pin : ℤ,
        resolveRelayRef (some (.inl s)) = .ok (some pin) ∧ 0 ≤ pin) ∧
    (∀ (s : String) (pin : ℤ),
      List.lookup (pyStrip s) RELAY_ALIASES = none →
      List.lookup (pyStrip s) KNOWN_RELAYS = some pin →
      resolveRelayRef (some (.inl s)) = .ok (some pin) ∧ 0 ≤ pin) ∧
    (∀ n : ℤ, resolveRelayRef (some (.inr n)) = .ok (some n)) ∧
    (∀ (s : String) (n : ℤ),
      List.lookup (pyStrip s) RELAY_ALIASES = none →
      List.lookup (pyStrip s) KNOWN_RELAYS = none →
      pyInt (pyStrip s) = some n →
      resolveRelayRef (some (.inl s)) = .ok (some n)) := by
  refine ⟨by decide, fun s c h => ?_, fun s pin h1 h2 => ?_,
    fun n => rfl, fun s n h1 h2 h3 => ?_⟩
  · have hmem : (pyStrip s, c) ∈ RELAY_ALIASES :=
      mem_of_lookup_eq_some _ _ _ h
    have htarget : ∀ pr ∈ RELAY_ALIASES,
        ∃ pin : ℤ, List.lookup pr.2 KNOWN_RELAYS = some pin ∧ 0 ≤ pin := by
      decide
    obtain ⟨pin, hk, hpin⟩ := htarget _ hmem
    have hne : pyStrip s ≠ "" := by
      intro he
      have hnone : List.lookup "" RELAY_ALIASES = none := by decide
      rw [he, hnone] at h
      exact Option.noConfusion h
    exact ⟨pin, by simp [resolveRelayRef, hne, h, hk], hpin⟩
  · have hmem : (pyStrip s, pin) ∈ KNOWN_RELAYS :=
      mem_of_lookup_eq_some _ _ _ h2
    have hknown : ∀ pr ∈ KNOWN_RELAYS, 0 ≤ pr.2 := by decide
    have hne : pyStrip s ≠ "" := by
      intro he
      have hnone : List.lookup "" KNOWN_RELAYS = none := by decide
      rw [he, hnone] at h2
      exact Option.noConfusion h2
    exact ⟨by simp [resolveRelayRef, hne, h1, h2], hknown _ hmem⟩
  · have hne : pyStrip s ≠ "" := by
      intro he
      rw [he] at h3
      exact Option.noConfusion ((by decide : pyInt "" = none) ▸ h3)
    simp [resolveRelayRef, hne, h1, h2, h3]

/-- C6 witness: the canonical reference `low_flame` misses the alias
table, hits the canonical table, and resolves to the non-negative pin 4. -/
theorem C6_resolver_range_witness :
    resolveRelayRef (some (.inl "low_flame")) = .ok (some 4) ∧
    (0 : ℤ) ≤ 4 :=
  C6_resolver_range.2.2.1 "low_flame" 4 (by decide) (by decide)

/-- C7: the maintained-call pattern executes exactly open, wait 1.0 s,
close, wait 0.25 s, open, wait 0.25 s, close, wait (hold duration, or the
indefinite hold until cancelled), open — and the `ignite --maintained`
dispatch hands `cmd_maintained` no pulse width at all, so its statements
are identical for any two pulse-width values. -/
theorem C7_maintained_pattern_exact :
    (∀ (pin : ℤ) (h : ℚ),
      cmd_maintained none none pin (some h) =
        ⟨[.wr pin .openR, .sleep 1, .wr pin .closeR, .sleep (1/4),
          .wr pin .openR, .sleep (1/4), .wr pin .closeR, .sleep h,
          .wr pin .openR], .normal⟩) ∧
    (∀ pin : ℤ,
      cmd_maintained (some 3) none pin none =
        ⟨[.wr pin .openR, .sleep 1, .wr pin .closeR, .sleep (1/4),
          .wr pin .openR, .sleep (1/4), .wr pin .closeR,
          .note .maintainedActive, .wr pin .openR], .normal⟩) ∧
    (∀ (pulse₁ pulse₂ : ℤ) (h : Option ℚ) (mp hp : ℤ),
      mainCmdSteps .ignite true pulse₁ h mp hp =
        mainCmdSteps .ignite true pulse₂ h mp hp) := by
  refine ⟨fun pin h => ?_, fun pin => ?_, fun p₁ p₂ h mp hp => rfl⟩ <;>
    simp [cmd_maintained, runPattern, maintainedSteps, runSteps]

/-- The probe statement list at the default parameters, flattened, with
the default close duration `300 / 1000` normalised to `3/10`. -/
theorem probeStepsDefault :
    probeSteps [4, 22, 6, 26] 300 0 none (1/2) =
      [.emit .probing,
       .doOpen 4, .doClose 4, .emit (.phase 4 .closeR (3/10)),
       .doSleep (3/10), .doOpen 4, .emit (.phase 4 .openR (1/2)),
       .doSleep (1/2),
       .doOpen 22, .doClose 22, .emit (.phase 22 .closeR (3/10)),
       .doSleep (3/10), .doOpen 22, .emit (.phase 22 .openR (1/2)),
       .doSleep (1/2),
       .doOpen 6, .doClose 6, .emit (.phase 6 .closeR (3/10)),
       .doSleep (3/10), .doOpen 6, .emit (.phase 6 .openR (1/2)),
       .doSleep (1/2),
       .doOpen 26, .doClose 26, .emit (.phase 26 .closeR (3/10)),
       .doSleep (3/10), .doOpen 26, .emit (.phase 26 .openR (1/2)),
       .doSleep (1/2)] := by
  norm_num [probeSteps, probeChannelSteps]

/-- Interpreter step: an open write succeeds when no write failure is
injected. -/
theorem runStepsOpenNoFail (c : Option ℕ) (p : ℤ) (rest : List Step)
    (w f : ℕ) (tr : List Ev) :
    runSteps c none (.doOpen p :: rest) w f tr =
      runSteps c none rest w (f + 1) (tr ++ [.wr p .openR]) := by
  rw [runSteps]
  exact if_neg (fun h => Option.noConfusion h)

/-- Interpreter step: a close write succeeds when no write failure is
injected. -/
theorem runStepsCloseNoFail (c : Option ℕ) (p : ℤ) (rest : List Step)
    (w f : ℕ) (tr : List Ev) :
    runSteps c none (.doClose p :: rest) w f tr =
      runSteps c none rest w (f + 1) (tr ++ [.wr p .closeR]) := by
  rw [runSteps]
  exact if_neg (fun h => Option.noConfusion h)

/-- Interpreter step: a timed wait completes when no cancellation is
injected. -/
theorem runStepsSleepNoCancel (f : Option ℕ) (d : ℚ) (rest : List Step)
    (w fi : ℕ) (tr : List Ev) :
    runSteps none f (.doSleep d :: rest) w fi tr =
      runSteps none f rest (w + 1) fi (tr ++ [.sleep d]) := by
  rw [runSteps]
  exact if_neg (fun h => Option.noConfusion h)

/-- Interpreter step: a print emits its note. -/
theorem runStepsEmit (c f : Option ℕ) (n : Note) (rest : List Step)
    (w fi : ℕ) (tr : List Ev) :
    runSteps c f (.emit n :: rest) w fi tr =
      runSteps c f rest w fi (tr ++ [.note n]) := by
  rw [runSteps]

/-- Interpreter step: an exhausted statement list terminates normally. -/
theorem runStepsNil (c f : Option ℕ) (w fi : ℕ) (tr : List Ev) :
    runSteps c f [] w fi tr = ⟨tr, .normal⟩ := by
  rw [runSteps]

/-- C8: with the default parameters (pulse 300 ms, open 0 s, close unset,
post-open 0.5 s) the probe sweep over `[4, 22, 6, 26]` performs, channel
by channel in the given order, the claimed cycle: its write sequence with
inter-write delays equals the spec's cycle `open, wait(0), close,
wait(0.3), open, wait(0.5)` per channel (the source skips the timer call
for the zero-duration open phase, elapsing the same zero time), each
channel ending open before the next begins; and an unset close duration
is definitionally the pulse width. -/
theorem C8_probe_sweep_default_sequence :
    (∀ (pins : List ℤ) (pulse_ms : ℤ) (oS pS : ℚ) (c f : Option ℕ),
      cmd_probe c f pins pulse_ms oS none pS =
        cmd_probe c f pins pulse_ms oS (some ((pulse_ms : ℚ) / 1000)) pS) ∧
    (cmd_probe none none [4, 22, 6, 26] 300 0 none (1/2)).outcome
      = .normal ∧
    timedWrites (cmd_probe none none [4, 22, 6, 26] 300 0 none (1/2)).trace 0
      = timedWrites specProbeTrace 0 ∧
    writes (cmd_probe none none [4, 22, 6, 26] 300 0 none (1/2)).trace =
      [(4, .openR), (4, .closeR), (4, .openR),
       (22, .openR), (22, .closeR), (22, .openR),
       (6, .openR), (6, .closeR), (6, .openR),
       (26, .openR), (26, .closeR), (26, .openR)] := by
  refine ⟨fun pins pm oS pS c f => rfl, ?_⟩
  rw [cmd_probe, runPattern, probeStepsDefault]
  simp only [runStepsOpenNoFail, runStepsCloseNoFail, runStepsSleepNoCancel,
    runStepsEmit, runStepsNil, List.cons_append, List.nil_append,
    List.append_assoc]
  norm_num [timedWrites, specProbeTrace, specProbeCycle, writes,
    List.filterMap_cons, List.filterMap_nil]

/-- C9 counterexample: with the boot-guard minimum at its default 12 s,
the uptime source unreadable, and dry-run off (the live mode), the guard
returns immediately but surfaces no diagnostic note — the degradation
message is printed only in dry-run mode (src line 194-195), contradicting
the claim that an unreadable uptime surfaces a note to the caller. -/
theorem C9_no_note_in_live_mode :
    guard_after_boot 12 none false = [] ∧
    hasGuardSkipNote (guard_after_boot 12 none false) = false := by
  decide

/-- C9 amended: `enforce(minimum_uptime)` returns immediately (no events)
when the minimum is non-positive or the uptime already meets it; blocks
for exactly `minimum - uptime` when the uptime falls short; and when the
uptime is unreadable returns immediately, surfacing the diagnostic note
only in dry-run mode and staying silent in live mode. -/
theorem C9_boot_guard_behaviour :
    (∀ (m : ℚ) (u : Option ℚ) (d : Bool),
      m ≤ 0 → guard_after_boot m u d = []) ∧
    (∀ (m u : ℚ) (d : Bool),
      0 < m → m ≤ u → guard_after_boot m (some u) d = []) ∧
    (∀ (m u : ℚ) (d : Bool),
      0 < m → u < m →
      guard_after_boot m (some u) d =
        [.note (.guardWaiting (m - u)), .sleep (m - u)] ∧
      totalSleep (guard_after_boot m (some u) d) = m - u) ∧
    (∀ m : ℚ, 0 < m →
      guard_after_boot m none true = [.note (.guardSkip m)] ∧
      guard_after_boot m none false = []) := by
  refine ⟨fun m u d h => ?_, fun m u d h1 h2 => ?_,
    fun m u d h1 h2 => ?_, fun m h => ?_⟩
  · simp [guard_after_boot, h]
  · simp [guard_after_boot, not_le.mpr h1, not_lt.mpr (sub_nonpos.mpr h2)]
  · have hrem : (0 : ℚ) < m - u := sub_pos.mpr h2
    constructor
    · simp [guard_after_boot, not_le.mpr h1, hrem]
    · simp [guard_after_boot, not_le.mpr h1, hrem, totalSleep]
  · exact ⟨by simp [guard_after_boot, not_le.mpr h],
      by simp [guard_after_boot, not_le.mpr h]⟩

/-- C9 witness: minimum 12 s against an uptime of 5 s, live mode: the
guard blocks for exactly the 7-second deficit; and with the uptime
unreadable in live mode it returns without events. -/
theorem C9_boot_guard_witness :
    guard_after_boot 12 (some 5) false =
      [.note (.guardWaiting (12 - 5)), .sleep (12 - 5)] ∧
    guard_after_boot 12 none false = [] :=
  ⟨(C9_boot_guard_behaviour.2.2.1 12 5 false (by norm_num) (by norm_num)).1,
   (C9_boot_guard_behaviour.2.2.2 12 (by norm_num)).2⟩

/-- C10: a preferred channel reference that is `None`, empty or
whitespace-only resolves to absent without error; because the fallback is
Python's truthiness `or`, a preferred reference resolving to channel 0 is
likewise treated as absent — selection then takes whatever the legacy pin
option resolves to, and raises the missing-configuration error when that
is absent too — so a selected channel 0 can only have come from the
legacy option, never from the preferred one. -/
theorem C10_zero_channel_falls_through :
    resolveRelayRef none = .ok none ∧
    (∀ s : String, pyStrip s = "" →
      resolveRelayRef (some (.inl s)) = .ok none) ∧
    (∀ pref legacy : Option (String ⊕ ℤ),
      resolveRelayRef pref = .ok (some 0) →
      selectPin pref legacy = resolveRelayRef legacy) ∧
    (∀ pref legacy : Option (String ⊕ ℤ),
      selectPin pref legacy = .ok (some 0) →
      resolveRelayRef legacy = .ok (some 0)) ∧
    (∀ pref legacy : Option (String ⊕ ℤ),
      resolveRelayRef pref = .ok (some 0) →
      resolveRelayRef legacy = .ok none →
      mainPinRequired pref legacy = .missingConfig) := by
  refine ⟨rfl, fun s h => ?_, fun pref legacy h => ?_,
    fun pref legacy h => ?_, fun pref legacy h1 h2 => ?_⟩
  · simp [resolveRelayRef, h]
  · simp [selectPin, h]
  · rw [selectPin] at h
    split at h
    · exact ResolveResult.noConfusion h
    · exact h
    · split at h
      · exact h
      · rename_i hn
        injection h with h1
        injection h1 with h2
        exact absurd h2 hn
  · simp [mainPinRequired, selectPin, h1, h2]

/-- C10 witness: the preferred reference `"0"` resolves (via integer
parse) to channel 0, which the truthiness fallback discards in favour of
the legacy pin 7. -/
theorem C10_zero_channel_witness :
    resolveRelayRef (some (.inl "0")) = .ok (some 0) ∧
    selectPin (some (.inl "0")) (some (.inr 7)) = .ok (some 7) :=
  ⟨by decide,
   (C10_zero_channel_falls_through.2.2.1 (some (.inl "0")) (some (.inr 7))
      (by decide)).trans (by decide)⟩

end Fireplace
